import Mathlib

/-!
Verification of the Fetch command-language core of the marionette-firmware
repository (fetch.c, fetch.h, gpio.c) against its natural-language
specification.  C strings are modelled as `List Char` (the bytes before the
terminating NUL); machine comparisons work on `Char.toNat` byte values.
-/

set_option maxRecDepth 10000

/-- Abbreviation for the byte-list model of a C string literal. -/
def str (s : String) : List Char := s.data

/-- Byte value of a character after ASCII lower-casing, as C `tolower` does on
the byte values the firmware feeds it. -/
def lb (c : Char) : Nat := if 65 ≤ c.toNat ∧ c.toNat ≤ 90 then c.toNat + 32 else c.toNat

/-- A byte list models a C string only when it holds no NUL byte. -/
def nulFree (s : List Char) : Prop := ∀ c ∈ s, c.toNat ≠ 0

instance (s : List Char) : Decidable (nulFree s) := by unfold nulFree; infer_instance

/-- C `strncasecmp(a, b, n)`: compare at most `n` bytes case-insensitively,
stopping at the terminating NUL (modelled by the end of the list). -/
def strncasecmp : List Char → List Char → Nat → Int
  | _, _, 0 => 0
  | [], [], _ + 1 => 0
  | [], b :: _, _ + 1 => 0 - (lb b : Int)
  | a :: _, [], _ + 1 => (lb a : Int)
  | a :: as, b :: bs, n + 1 =>
      if lb a = lb b then strncasecmp as bs n else (lb a : Int) - (lb b : Int)

/-- FETCH_MAX_CMD_STRLEN from fetch.h. -/
def FETCH_MAX_CMD_STRLEN : Nat := 25

/-- FETCH_MAX_COMMANDS from fetch.h. -/
def FETCH_MAX_COMMANDS : Nat := 8

/-- FETCH_MAX_LINE_CHARS from fetch.h. -/
def FETCH_MAX_LINE_CHARS : Nat := 256

/-- Modelled from the spec: `get_longest_str_length` (util_strings, not under
src/) returns the length of the longer of the two strings, capped at the
given maximum comparison length. -/
def get_longest_str_length (a b : List Char) (cap : Nat) : Nat :=
  min cap (max a.length b.length)

/-- Loop body of `fetch_token_match` (fetch.c): scan the vocabulary from
index `i`, returning the first index whose entry compares equal to the
candidate over `get_longest_str_length` bytes, else -1. -/
def fetch_token_match_go : List (List Char) → List Char → Nat → Int
  | [], _, _ => -1
  | e :: es, t, i =>
      if strncasecmp e t (get_longest_str_length e t FETCH_MAX_CMD_STRLEN) = 0 then (i : Int)
      else fetch_token_match_go es t (i + 1)

/-- C `fetch_token_match(chp, tok_array, chk_tok, num_elems)` (fetch.c). -/
def fetch_token_match (tok_array : List (List Char)) (chk_tok : List Char) : Int :=
  fetch_token_match_go tok_array chk_tok 0

/-- fetch_terminals.command (fetch.c). -/
def command_vocab : List (List Char) :=
  [str "?", str "help", str "gpio", str "adc", str "spi", str "i2c", str "resetpins"]

/-- fetch_terminals.gpio_subcommandA (fetch.c). -/
def gpio_subcommandA_vocab : List (List Char) :=
  [str "get", str "set", str "clear", str "configure"]

/-- fetch_terminals.gpio_direction (fetch.c). -/
def gpio_direction_vocab : List (List Char) := [str "input", str "output"]

/-- fetch_terminals.gpio_sense (fetch.c). -/
def gpio_sense_vocab : List (List Char) :=
  [str "pullup", str "pulldown", str "floating", str "analog"]

/-- fetch_terminals.port_subcommand (fetch.c). -/
def port_subcommand_vocab : List (List Char) :=
  [str "porta", str "portb", str "portc", str "portd", str "porte",
   str "portf", str "portg", str "porth", str "porti"]

/-- fetch_terminals.pin_subcommand (fetch.c). -/
def pin_subcommand_vocab : List (List Char) :=
  [str "pin0", str "pin1", str "pin2", str "pin3", str "pin4", str "pin5",
   str "pin6", str "pin7", str "pin8", str "pin9", str "pin10", str "pin11",
   str "pin12", str "pin13", str "pin14", str "pin15"]

/-- Index of the first vocabulary entry satisfying `p`, in vocabulary order. -/
def firstMatchIdx (p : List Char → Bool) : List (List Char) → Option Nat
  | [] => none
  | e :: es =>
      if p e then some 0
      else
        match firstMatchIdx p es with
        | some j => some (j + 1)
        | none => none

/-- Spec-side restatement of claim C1: the matcher compares each entry to the
candidate case-insensitively over exactly
`min (FETCH_MAX_CMD_STRLEN) (max (entry length) (candidate length))` bytes and
returns the first matching index, else -1. -/
def tokenMatchSpec (V : List (List Char)) (t : List Char) : Int :=
  match firstMatchIdx
      (fun e => strncasecmp e t (min FETCH_MAX_CMD_STRLEN (max e.length t.length)) == 0) V with
  | some i => (i : Int)
  | none => -1

/-- Case-insensitive equality of two byte strings. -/
def ciEq (a b : List Char) : Bool := a.map lb == b.map lb

/-! ## GPIO layer (gpio.c) -/

/-- The nine GPIO port identifiers GPIOA..GPIOI of the hardware layer. -/
inductive Port | A | B | C | D | E | F | G | H | I
  deriving DecidableEq, Repr

/-- Modelled from the spec: positions ACTION, PORT, PIN, DIRECTION, SENSE of
the command-token array (fetch_defs.h, not under src/); the grammar
`gpio:action:port:pin:direction:sense` fixes them at 1..5 with the top-level
command at 0. -/
def ACTION : Nat := 1
/-- Position of the port token in the command-token array; see `ACTION`. -/
def PORT : Nat := 2
/-- Position of the pin token in the command-token array; see `ACTION`. -/
def PIN : Nat := 3
/-- Position of the direction token in the command-token array; see `ACTION`. -/
def DIRECTION : Nat := 4
/-- Position of the sense token in the command-token array; see `ACTION`. -/
def SENSE : Nat := 5

/-- Modelled from the spec: MAX_PIN_STR_LEN (gpio.h, not under src/).  The
spec fixes effective pin-token comparison lengths at 4 and 5; any cap of at
least 5 yields those lengths for every valid pin token, so we take 5. -/
def MAX_PIN_STR_LEN : Nat := 5

/-- Modelled from the platform HAL headers (external collaborator): STM32 pad
mode and pull-up/down register values used by gpio_config.  The claims depend
only on which token maps to which constant and on the 0 default. -/
def PAL_STM32_MODE_INPUT : Nat := 0
/-- STM32 pad mode value for output; see `PAL_STM32_MODE_INPUT`. -/
def PAL_STM32_MODE_OUTPUT : Nat := 1
/-- STM32 pad mode value for analog; see `PAL_STM32_MODE_INPUT`. -/
def PAL_STM32_MODE_ANALOG : Nat := 3
/-- STM32 pull resistor value for floating; see `PAL_STM32_MODE_INPUT`. -/
def PAL_STM32_PUDR_FLOATING : Nat := 0
/-- STM32 pull resistor value for pull-up; see `PAL_STM32_MODE_INPUT`. -/
def PAL_STM32_PUDR_PULLUP : Nat := 32
/-- STM32 pull resistor value for pull-down; see `PAL_STM32_MODE_INPUT`. -/
def PAL_STM32_PUDR_PULLDOWN : Nat := 64

/-- C `gpio_get_port_pin(chp, commandl, &port, &pin)` (gpio.c): the out
parameters, `none` meaning the corresponding `*port` / `*pin` write never
happened (the caller's initial value survives).  Each comparison is kept as
in the source, including the `strlen("porta")` length reused for every port
and the `maxlen + 5` comparison length special-cased for "pin8". -/
def gpio_get_port_pin (portTok pinTok : List Char) : Option Port × Option Nat :=
  let port : Option Port :=
    if strncasecmp portTok (str "porta") 5 = 0 then some Port.A
    else if strncasecmp portTok (str "portb") 5 = 0 then some Port.B
    else if strncasecmp portTok (str "portc") 5 = 0 then some Port.C
    else if strncasecmp portTok (str "portd") 5 = 0 then some Port.D
    else if strncasecmp portTok (str "porte") 5 = 0 then some Port.E
    else if strncasecmp portTok (str "portf") 5 = 0 then some Port.F
    else if strncasecmp portTok (str "portg") 5 = 0 then some Port.G
    else if strncasecmp portTok (str "porth") 5 = 0 then some Port.H
    else if strncasecmp portTok (str "porti") 5 = 0 then some Port.I
    else none
  let maxlen := get_longest_str_length pinTok (str "pinX") MAX_PIN_STR_LEN
  let pin : Option Nat :=
    if maxlen = 4 then
      if strncasecmp pinTok (str "pin0") maxlen = 0 then some 0
      else if strncasecmp pinTok (str "pin1") maxlen = 0 then some 1
      else if strncasecmp pinTok (str "pin2") maxlen = 0 then some 2
      else if strncasecmp pinTok (str "pin3") maxlen = 0 then some 3
      else if strncasecmp pinTok (str "pin4") maxlen = 0 then some 4
      else if strncasecmp pinTok (str "pin5") maxlen = 0 then some 5
      else if strncasecmp pinTok (str "pin6") maxlen = 0 then some 6
      else if strncasecmp pinTok (str "pin7") maxlen = 0 then some 7
      else if strncasecmp pinTok (str "pin8") (maxlen + 5) = 0 then some 8
      else if strncasecmp pinTok (str "pin9") maxlen = 0 then some 9
      else none
    else
      if strncasecmp pinTok (str "pin10") maxlen = 0 then some 10
      else if strncasecmp pinTok (str "pin11") maxlen = 0 then some 11
      else if strncasecmp pinTok (str "pin12") maxlen = 0 then some 12
      else if strncasecmp pinTok (str "pin13") maxlen = 0 then some 13
      else if strncasecmp pinTok (str "pin14") maxlen = 0 then some 14
      else if strncasecmp pinTok (str "pin15") maxlen = 0 then some 15
      else none
  (port, pin)

/-- Calls made to the hardware capability layer (ChibiOS PAL), recorded in
program order; the port is `none` when the C code would pass a NULL port. -/
inductive HwCall
  | readPad (port : Option Port) (pin : Nat)
  | setPad (port : Option Port) (pin : Nat)
  | clearPad (port : Option Port) (pin : Nat)
  | setPadMode (port : Option Port) (pin : Nat) (mode : Nat)
  | palInit
  deriving DecidableEq, Repr

/-- Entry `i` of a C token-pointer array: `none` models a NULL pointer.
Reads past the populated prefix see the boot-time zero initialisation of the
static arrays (NULL); reuse of stale entries from an earlier line is outside
this per-statement model. -/
def tokAt (l : List (Option (List Char))) (i : Nat) : Option (List Char) :=
  (l.get? i).getD none

/-- Lookup through a possibly-NULL token: the C code would trip
chDbgAssert on a NULL `chk_tok` inside fetch_token_match; the claims never
reach that case, and we model it as no match. -/
def matchOpt (V : List (List Char)) (t : Option (List Char)) : Int :=
  match t with
  | none => -1
  | some s => fetch_token_match V s

/-- C `gpio_config(chp, commandl)` (gpio.c): resolve port and pin, map the
direction and sense tokens through if-chains whose fall-through keeps the
initial value 0, then call `palSetPadMode(port, pin, direction | sense)`. -/
def gpio_config (commandl : List (Option (List Char))) : List HwCall :=
  let r := gpio_get_port_pin ((tokAt commandl PORT).getD []) ((tokAt commandl PIN).getD [])
  let pin : Nat := r.2.getD 0
  let d := (tokAt commandl DIRECTION).getD []
  let direction : Nat :=
    if strncasecmp d (str "input") 5 = 0 then PAL_STM32_MODE_INPUT
    else if strncasecmp d (str "output") 6 = 0 then PAL_STM32_MODE_OUTPUT
    else 0
  let s := (tokAt commandl SENSE).getD []
  let sense : Nat :=
    if strncasecmp s (str "pullup") 6 = 0 then PAL_STM32_PUDR_PULLUP
    else if strncasecmp s (str "pulldown") 8 = 0 then PAL_STM32_PUDR_PULLDOWN
    else if strncasecmp s (str "floating") 8 = 0 then PAL_STM32_PUDR_FLOATING
    else if strncasecmp s (str "analog") 6 = 0 then PAL_STM32_MODE_ANALOG
    else 0
  [HwCall.setPadMode r.1 pin (Nat.lor direction sense)]

/-- C `gpio_get` (gpio.c): resolve port and pin, read the pad. -/
def gpio_get (commandl : List (Option (List Char))) : List HwCall :=
  let r := gpio_get_port_pin ((tokAt commandl PORT).getD []) ((tokAt commandl PIN).getD [])
  [HwCall.readPad r.1 (r.2.getD 0)]

/-- C `gpio_set` (gpio.c): resolve port and pin, set the pad. -/
def gpio_set (commandl : List (Option (List Char))) : List HwCall :=
  let r := gpio_get_port_pin ((tokAt commandl PORT).getD []) ((tokAt commandl PIN).getD [])
  [HwCall.setPad r.1 (r.2.getD 0)]

/-- C `gpio_clear` (gpio.c): resolve port and pin, clear the pad. -/
def gpio_clear (commandl : List (Option (List Char))) : List HwCall :=
  let r := gpio_get_port_pin ((tokAt commandl PORT).getD []) ((tokAt commandl PIN).getD [])
  [HwCall.clearPad r.1 (r.2.getD 0)]

/-- Wrapper `fetch_is_valid_gpio_direction` (fetch.c). -/
def fetch_is_valid_gpio_direction (t : List Char) : Int :=
  fetch_token_match gpio_direction_vocab t

/-- Wrapper `fetch_is_valid_gpio_sense` (fetch.c). -/
def fetch_is_valid_gpio_sense (t : List Char) : Int :=
  fetch_token_match gpio_sense_vocab t

/-- C `fetch_gpio(chp, cmd_list, data_list)` (fetch.c): validate action, port
and pin tokens, branch on the action by prefix comparison, and for the
configure branch require non-NULL direction and sense entries before calling
gpio_config.  Returns the handler's bool result and the hardware calls
issued. -/
def fetch_gpio (cmd_list : List (Option (List Char))) : Bool × List HwCall :=
  if 0 ≤ matchOpt gpio_subcommandA_vocab (tokAt cmd_list ACTION) then
    if 0 ≤ matchOpt port_subcommand_vocab (tokAt cmd_list PORT) then
      if 0 ≤ matchOpt pin_subcommand_vocab (tokAt cmd_list PIN) then
        let a := (tokAt cmd_list 1).getD []
        if strncasecmp a (str "get") 3 = 0 then (true, gpio_get cmd_list)
        else if strncasecmp a (str "set") 3 = 0 then (true, gpio_set cmd_list)
        else if strncasecmp a (str "clear") 5 = 0 then (true, gpio_clear cmd_list)
        else if strncasecmp a (str "config") 6 = 0 then
          if (tokAt cmd_list DIRECTION).isSome ∧ (tokAt cmd_list SENSE).isSome then
            (true, gpio_config cmd_list)
          else (false, [])
        else (true, [])
      else (false, [])
    else (false, [])
  else (false, [])

/-! ## Tokenizer and dispatcher (fetch.c, fetch_parse / fetch_dispatch) -/

/-- Accumulator loop for `tokenRuns`: collect the current run of
non-delimiter characters (reversed in `acc`) and emit it at each delimiter
or at the end of the string. -/
def tokenRunsGo (d : List Char) : List Char → List Char → List (List Char)
  | [], acc => if acc = [] then [] else [acc.reverse]
  | c :: cs, acc =>
      if c ∈ d then
        if acc = [] then tokenRunsGo d cs []
        else acc.reverse :: tokenRunsGo d cs []
      else tokenRunsGo d cs (c :: acc)

/-- Modelled from the spec: the token sequence produced by repeated
`_strtok(·, delims, &tokp)` calls (util_strings, not under src/), i.e.
C `strtok_r`: the maximal nonempty runs of non-delimiter characters, in
order.  Leading, trailing and consecutive delimiters yield no empty
tokens. -/
def tokenRuns (s : List Char) (d : List Char) : List (List Char) :=
  tokenRunsGo d s []

/-- Modelled from the spec: `fetch_remove_spaces` (util_strings, not under
src/) strips whitespace from the command part; the round-trip examples of
the spec require the trailing newline to be stripped along with spaces and
tabs. -/
def fetch_remove_spaces (s : List Char) : List Char :=
  s.filter (fun c => ¬ (c = ' ' ∨ c = '\t' ∨ c = '\r' ∨ c = '\n'))

/-- Token-array builder shared by the command and data loops of
`fetch_parse` (fetch.c): the first `_strtok` result lands at index 0 (NULL
when the string has no token); each further token is guarded by
`n >= FETCH_MAX_COMMANDS`, which on overflow reports the error, clears index
0 to NULL and breaks; afterwards the entry after the last written index is
set to the empty-string sentinel.  Returns (overflow-error reported, final
meaningful prefix of the array). -/
def buildToks (toks : List (List Char)) : Bool × List (Option (List Char)) :=
  match toks with
  | [] => (false, [none, some []])
  | t :: rest =>
      if rest.length ≤ FETCH_MAX_COMMANDS then
        (false, (t :: rest).map some ++ [some []])
      else
        (true, none :: (rest.take FETCH_MAX_COMMANDS).map some ++ [some []])

/-- Outcome of `fetch_dispatch` (fetch.c): the chDbgAssert on a NULL
`command_list[0]` inside fetch_token_match, an unrecognized command (no
handler invoked), or the handler at vocabulary index `i` invoked with result
`r` and hardware calls `calls`. -/
inductive DispatchOutcome
  | assertNull
  | unrecognized
  | handled (i : Nat) (r : Bool) (calls : List HwCall)
  deriving DecidableEq, Repr

/-- Handler table built by `fetch_init_cmd_fns` (fetch.c): indices 0 and 1
("?", "help") bind fetch_info, 2 ("gpio") binds fetch_gpio, 6 ("resetpins")
binds fetch_resetpins, everything else fetch_not_yet. -/
def cmd_fns (i : Nat) (cmd_list : List (Option (List Char))) : Bool × List HwCall :=
  if i = 0 ∨ i = 1 then (true, [])
  else if i = 2 then fetch_gpio cmd_list
  else if i = 6 then (true, [HwCall.palInit])
  else (false, [])

/-- C `fetch_dispatch(chp, command_list, data_list)` (fetch.c): look up
`command_list[0]` in the command vocabulary; NULL trips the matcher's
assertion, a failed match reports an unrecognized command and returns false,
otherwise the bound handler runs. -/
def fetch_dispatch (ctoks : List (Option (List Char))) : DispatchOutcome :=
  match tokAt ctoks 0 with
  | none => DispatchOutcome.assertNull
  | some t =>
      let cindex := fetch_token_match command_vocab t
      if cindex < 0 then DispatchOutcome.unrecognized
      else
        let hr := cmd_fns cindex.toNat ctoks
        DispatchOutcome.handled cindex.toNat hr.1 hr.2

/-- Observable result of one `fetch_parse` call (fetch.c): the error
messages emitted, the final command/data token arrays, whether and how
`fetch_dispatch` ran, and the function's return value (`none` when the NULL
assertion fires inside dispatch and no value is returned). -/
structure ParseResult where
  missingCmd : Bool
  emptyLine : Bool
  tooManyCmd : Bool
  tooManyData : Bool
  ctoks : List (Option (List Char))
  dtoks : List (Option (List Char))
  outcome : Option DispatchOutcome
  ret : Option Bool
  deriving DecidableEq, Repr

/-- C `fetch_parse(chp, inputline)` (fetch.c) on a fresh interpreter state:
copy the line into localinput (truncated at FETCH_MAX_LINE_CHARS), reject a
line whose first byte fails `localinput[0] != '(' || localinput[0] == ')'`,
split at '(' into colonpart and parenpart, return true on a missing
colonpart, strip whitespace from the command part, tokenize the command part
on ':' and the data part on ' ' with the shared overflow policy, then
dispatch. -/
def fetch_parse (inputline : List Char) : ParseResult :=
  let localinput := inputline.take FETCH_MAX_LINE_CHARS
  let c0 := localinput.headD '\x00'
  if (c0 != '(') || (c0 == ')') then
    let runs := tokenRuns localinput ['(']
    match runs.head? with
    | none =>
        { missingCmd := false, emptyLine := true, tooManyCmd := false, tooManyData := false,
          ctoks := [], dtoks := [], outcome := none, ret := some true }
    | some colonpart =>
        let commandstr := fetch_remove_spaces colonpart
        let parenpart := runs.get? 1
        let cres := buildToks (tokenRuns commandstr [':'])
        let dres :=
          match parenpart with
          | some p => buildToks (tokenRuns p [' '])
          | none => (false, [none])
        let oc := fetch_dispatch cres.2
        { missingCmd := false, emptyLine := false, tooManyCmd := cres.1, tooManyData := dres.1,
          ctoks := cres.2, dtoks := dres.2, outcome := some oc,
          ret :=
            match oc with
            | DispatchOutcome.assertNull => none
            | DispatchOutcome.unrecognized => some false
            | DispatchOutcome.handled _ r _ => some r }
  else
    { missingCmd := true, emptyLine := false, tooManyCmd := false, tooManyData := false,
      ctoks := [], dtoks := [], outcome := none, ret := some false }

/-! ## Properties of the token matcher -/

lemma lb_ne_zero {c : Char} (h : c.toNat ≠ 0) : lb c ≠ 0 := by
  unfold lb; split <;> omega

lemma lb_eq_zero_of_toNat_eq_zero {c : Char} (h : c.toNat = 0) : lb c = 0 := by
  unfold lb; split <;> omega

/-- Core characterisation of the C comparison: `strncasecmp a b n` returns 0
exactly when the first `n` bytes of the two NUL-free strings agree after
lower-casing (string ends included, as the NUL terminator compares unequal
to any further byte). -/
lemma strncasecmp_eq_zero_iff :
    ∀ (n : Nat) (a b : List Char), nulFree a → nulFree b →
      (strncasecmp a b n = 0 ↔ (a.take n).map lb = (b.take n).map lb)
  | 0, a, b, _, _ => by simp [strncasecmp]
  | n + 1, [], [], _, _ => by simp [strncasecmp]
  | n + 1, [], y :: ys, _, hb => by
      have hy : lb y ≠ 0 := lb_ne_zero (hb y (by simp))
      simp [strncasecmp]
      omega
  | n + 1, x :: xs, [], ha, _ => by
      have hx : lb x ≠ 0 := lb_ne_zero (ha x (by simp))
      simp [strncasecmp]
      omega
  | n + 1, x :: xs, y :: ys, ha, hb => by
      have hxs : nulFree xs := fun c hc => ha c (by simp [hc])
      have hys : nulFree ys := fun c hc => hb c (by simp [hc])
      by_cases h : lb x = lb y
      · simp [strncasecmp, h, strncasecmp_eq_zero_iff n xs ys hxs hys]
      · have : ((lb x : Int) - (lb y : Int)) ≠ 0 := by
          rw [sub_ne_zero]
          exact_mod_cast h
        simp [strncasecmp, h, this]

/-- The scan of `fetch_token_match` returns `i` plus the index of the first
entry satisfying the comparison, whenever `p` coincides with the comparison
on the vocabulary. -/
lemma fetch_token_match_go_spec (t : List Char) (p : List Char → Bool) :
    ∀ (V : List (List Char)) (i : Nat),
      (∀ e ∈ V,
        (strncasecmp e t (get_longest_str_length e t FETCH_MAX_CMD_STRLEN) = 0) ↔ p e = true) →
      fetch_token_match_go V t i =
        (match firstMatchIdx p V with
         | some j => ((i + j : Nat) : Int)
         | none => -1)
  | [], i, _ => by simp [fetch_token_match_go, firstMatchIdx]
  | e :: es, i, h => by
      have he := h e (by simp)
      have hes : ∀ e ∈ es,
          (strncasecmp e t (get_longest_str_length e t FETCH_MAX_CMD_STRLEN) = 0) ↔ p e = true :=
        fun x hx => h x (by simp [hx])
      by_cases hp : p e = true
      · rw [fetch_token_match_go, if_pos (he.mpr hp)]
        simp [firstMatchIdx, hp]
      · rw [fetch_token_match_go, if_neg (fun hc => hp (he.mp hc))]
        rw [fetch_token_match_go_spec t p es (i + 1) hes]
        cases hfi : firstMatchIdx p es with
        | none => simp [firstMatchIdx, hp, hfi]
        | some j =>
            simp only [firstMatchIdx, hp, hfi, if_neg, Bool.false_eq_true, if_false]
            congr 1
            omega

/-- Claim C1: `fetch_token_match` compares each vocabulary entry to the
candidate case-insensitively over exactly
`min FETCH_MAX_CMD_STRLEN (max (entry length) (candidate length))` bytes and
returns the index of the first entry in vocabulary order matching under this
comparison (`tokenMatchSpec`, written from the claim). -/
theorem fetch_token_match_eq_tokenMatchSpec (V : List (List Char)) (t : List Char) :
    fetch_token_match V t = tokenMatchSpec V t := by
  unfold fetch_token_match tokenMatchSpec
  rw [fetch_token_match_go_spec t
    (fun e => strncasecmp e t (min FETCH_MAX_CMD_STRLEN (max e.length t.length)) == 0) V 0
    (fun e _ => by
      rw [beq_iff_eq]
      rfl)]
  cases firstMatchIdx
      (fun e => strncasecmp e t (min FETCH_MAX_CMD_STRLEN (max e.length t.length)) == 0) V with
  | none => rfl
  | some j => simp

/-- Shared characterisation: under the length bound the comparison reduces
to case-insensitive string equality, so the matcher returns the first
case-insensitive occurrence or -1. -/
lemma fetch_token_match_ci_aux (V : List (List Char)) (t : List Char)
    (hV : ∀ e ∈ V, e.length ≤ FETCH_MAX_CMD_STRLEN ∧ nulFree e)
    (ht : t.length ≤ FETCH_MAX_CMD_STRLEN) (hnt : nulFree t) :
    fetch_token_match V t =
      (match firstMatchIdx (fun e => ciEq e t) V with
       | some i => (i : Int)
       | none => -1) := by
  unfold fetch_token_match
  rw [fetch_token_match_go_spec t (fun e => ciEq e t) V 0
    (fun e he => by
      obtain ⟨hel, hen⟩ := hV e he
      have hmax : get_longest_str_length e t FETCH_MAX_CMD_STRLEN = max e.length t.length := by
        unfold get_longest_str_length
        exact Nat.min_eq_right (by omega)
      rw [hmax, strncasecmp_eq_zero_iff _ e t hen hnt,
        List.take_of_length_le (le_max_left _ _),
        List.take_of_length_le (le_max_right _ _)]
      unfold ciEq
      rw [beq_iff_eq])]
  cases firstMatchIdx (fun e => ciEq e t) V with
  | none => rfl
  | some j => simp

/-- Claim C3 (amended): when every vocabulary entry and the candidate are
NUL-free strings of length at most FETCH_MAX_CMD_STRLEN, the matcher returns
the first index whose entry equals the candidate up to case, and -1 when no
entry does. -/
theorem fetch_token_match_ci (V : List (List Char)) (t : List Char)
    (hV : ∀ e ∈ V, e.length ≤ FETCH_MAX_CMD_STRLEN ∧ nulFree e)
    (ht : t.length ≤ FETCH_MAX_CMD_STRLEN) (hnt : nulFree t) :
    fetch_token_match V t =
      (match firstMatchIdx (fun e => ciEq e t) V with
       | some i => (i : Int)
       | none => -1) :=
  fetch_token_match_ci_aux V t hV ht hnt

/-- Witness for C3 at a mixed-case member of a program vocabulary. -/
theorem fetch_token_match_ci_witness :
    fetch_token_match gpio_subcommandA_vocab (str "ClEaR") =
      (match firstMatchIdx (fun e => ciEq e (str "ClEaR")) gpio_subcommandA_vocab with
       | some i => (i : Int)
       | none => -1) :=
  fetch_token_match_ci gpio_subcommandA_vocab (str "ClEaR") (by decide) (by decide) (by decide)

/-- Vocabulary entry longer than FETCH_MAX_CMD_STRLEN used to refute C3 as
stated: 26 characters, all but the last shared with `overlongCandidate`. -/
def overlongEntry : List Char := str "aaaaaaaaaaaaaaaaaaaaaaaaab"

/-- Candidate sharing the first 25 characters of `overlongEntry`. -/
def overlongCandidate : List Char := str "aaaaaaaaaaaaaaaaaaaaaaaaac"

/-- Counterexample to C3 as stated: the candidate matches no vocabulary entry
even case-insensitively, yet the capped comparison makes the matcher return
index 0 instead of NotFound. -/
theorem fetch_token_match_notfound_counterexample :
    (∀ e ∈ [overlongEntry], ciEq e overlongCandidate = false) ∧
      fetch_token_match [overlongEntry] overlongCandidate = 0 := by decide

/-- Claim C2: "pin1" and "pin10" match distinct pin-vocabulary entries, each
at its own index; `gpio_get_port_pin` maps every valid pin token, "pin8"
included, to its pin number; and the effective comparison length is 4 for
"pin0".."pin9" and 5 for "pin10".."pin15", both in the token matcher and in
the pin resolution of gpio.c. -/
theorem pin_token_disambiguation :
    fetch_token_match pin_subcommand_vocab (str "pin1") = 1 ∧
    fetch_token_match pin_subcommand_vocab (str "pin10") = 10 ∧
    fetch_token_match pin_subcommand_vocab (str "pin1") ≠
      fetch_token_match pin_subcommand_vocab (str "pin10") ∧
    (∀ i : Fin 16,
      (gpio_get_port_pin (str "porta") (pin_subcommand_vocab.getD i [])).2 = some (i : Nat)) ∧
    (∀ i : Fin 16,
      get_longest_str_length (pin_subcommand_vocab.getD i []) (pin_subcommand_vocab.getD i [])
        FETCH_MAX_CMD_STRLEN = if (i : Nat) ≤ 9 then 4 else 5) ∧
    (∀ i : Fin 16,
      get_longest_str_length (pin_subcommand_vocab.getD i []) (str "pinX") MAX_PIN_STR_LEN
        = if (i : Nat) ≤ 9 then 4 else 5) := by decide

/-- Command-token array of the statement
`gpio:configure:porta:pin0:sideways:pullup`, whose direction token matches no
entry of the direction vocabulary. -/
def configure_bad_direction_cmd : List (Option (List Char)) :=
  [some (str "gpio"), some (str "configure"), some (str "porta"), some (str "pin0"),
   some (str "sideways"), some (str "pullup"), some (str "")]

/-- Claim C4 is the documented intent; this theorem exhibits the code's
actual behaviour at the failing input: the direction token "sideways"
matches no vocabulary entry, yet the handler reports success and issues the
hardware configure call with the direction defaulted to 0 (mode
`0 ||| PAL_STM32_PUDR_PULLUP`) instead of failing validation. -/
theorem gpio_config_defaults_on_unmatched_direction :
    fetch_is_valid_gpio_direction (str "sideways") = -1 ∧
    fetch_gpio configure_bad_direction_cmd =
      (true, [HwCall.setPadMode (some Port.A) 0 (Nat.lor 0 PAL_STM32_PUDR_PULLUP)]) := by decide

/-! ## Claim C5: configure with missing direction or sense tokens -/

/-- Configure statement with direction present but sense token absent. -/
def fiveTokenConfigureLine : List Char := str "gpio:configure:porta:pin3:input"

/-- Configure statement with both direction and sense tokens absent. -/
def fourTokenConfigureLine : List Char := str "gpio:configure:porta:pin3"

/-- Claim C5 is the documented intent; this theorem exhibits the code's
actual behaviour.  On the five-token configure line whose sense token is
absent, the tokenizer's final `command_toks[++n] = "\0"` writes a non-NULL
empty-string terminator that lands exactly at index SENSE, so the guard
`cmd_list[DIRECTION] != NULL && cmd_list[SENSE] != NULL` passes,
gpio_config runs with the sense defaulted to 0, the hardware configure call
executes, and the handler reports success -- violating the claim.  Only
when both trailing tokens are absent (four tokens) does index SENSE hold
the boot-state NULL, making the handler fail without a hardware call as
the claim demands. -/
theorem configure_missing_sense_executes_hardware :
    ((fetch_parse fiveTokenConfigureLine).ctoks =
        [some (str "gpio"), some (str "configure"), some (str "porta"), some (str "pin3"),
         some (str "input"), some (str "")] ∧
      (fetch_parse fiveTokenConfigureLine).outcome =
        some (DispatchOutcome.handled 2 true
          [HwCall.setPadMode (some Port.A) 3 (Nat.lor PAL_STM32_MODE_INPUT 0)]) ∧
      (fetch_parse fiveTokenConfigureLine).ret = some true) ∧
    ((fetch_parse fourTokenConfigureLine).outcome =
        some (DispatchOutcome.handled 2 false []) ∧
      (fetch_parse fourTokenConfigureLine).ret = some false) := by decide

/-! ## Claims C6-C9: fetch_parse behaviour -/

/-- Claim C6 (amended): the command loop of fetch_parse stores up to
`FETCH_MAX_COMMANDS + 1` tokens before its overflow guard fires, so only a
command part of at least `FETCH_MAX_COMMANDS + 2` colon-separated tokens
reports "too many commands"; it then clears `command_toks[0]` to NULL, and
no handler runs because the dispatcher trips the NULL-pointer assertion on
the cleared entry. -/
theorem fetch_parse_too_many_commands (line cp : List Char)
    (hhead : (line.take FETCH_MAX_LINE_CHARS).headD '\x00' ≠ '(')
    (hcp : (tokenRuns (line.take FETCH_MAX_LINE_CHARS) ['(']).head? = some cp)
    (hcount : FETCH_MAX_COMMANDS + 2 ≤ (tokenRuns (fetch_remove_spaces cp) [':']).length) :
    (fetch_parse line).tooManyCmd = true ∧
    tokAt (fetch_parse line).ctoks 0 = none ∧
    (fetch_parse line).outcome = some DispatchOutcome.assertNull ∧
    (fetch_parse line).ret = none := by
  have hguard :
      (((line.take FETCH_MAX_LINE_CHARS).headD '\x00' != '(') ||
        ((line.take FETCH_MAX_LINE_CHARS).headD '\x00' == ')')) = true := by
    rw [Bool.or_eq_true]
    exact Or.inl (bne_iff_ne.mpr hhead)
  obtain ⟨t, rest, htoks⟩ :
      ∃ t rest, tokenRuns (fetch_remove_spaces cp) [':'] = t :: rest := by
    cases hx : tokenRuns (fetch_remove_spaces cp) [':'] with
    | nil => rw [hx] at hcount; simp [FETCH_MAX_COMMANDS] at hcount
    | cons t rest => exact ⟨t, rest, rfl⟩
  have hrest : ¬ rest.length ≤ FETCH_MAX_COMMANDS := by
    rw [htoks] at hcount
    simp only [List.length_cons, FETCH_MAX_COMMANDS] at hcount ⊢
    omega
  have hbuild : buildToks (tokenRuns (fetch_remove_spaces cp) [':']) =
      (true, none :: (rest.take FETCH_MAX_COMMANDS).map some ++ [some []]) := by
    rw [htoks]
    simp only [buildToks]
    rw [if_neg hrest]
  unfold fetch_parse
  simp only [hguard, if_true, hcp, hbuild, fetch_dispatch, tokAt]
  simp

/-- Witness for C6 (amended) at a ten-token command line. -/
theorem fetch_parse_too_many_commands_witness :
    (fetch_parse (str "a:b:c:d:e:f:g:h:i:j")).tooManyCmd = true ∧
    tokAt (fetch_parse (str "a:b:c:d:e:f:g:h:i:j")).ctoks 0 = none ∧
    (fetch_parse (str "a:b:c:d:e:f:g:h:i:j")).outcome = some DispatchOutcome.assertNull ∧
    (fetch_parse (str "a:b:c:d:e:f:g:h:i:j")).ret = none :=
  fetch_parse_too_many_commands (str "a:b:c:d:e:f:g:h:i:j") (str "a:b:c:d:e:f:g:h:i:j")
    (by decide) (by decide) (by decide)

/-- Command line of nine colon-separated tokens, one more than
FETCH_MAX_COMMANDS, recognized top-level command "gpio". -/
def nineTokenLine : List Char := str "gpio:a:b:c:d:e:f:g:h"

/-- Counterexample to C6 as stated: a command part of nine tokens exceeds
FETCH_MAX_COMMANDS = 8, yet no "too many commands" error is reported, all
nine tokens are kept, and the statement is dispatched to the gpio handler
(which runs and returns false on its own sub-validation). -/
theorem fetch_parse_nine_tokens_counterexample :
    FETCH_MAX_COMMANDS <
      (tokenRuns (fetch_remove_spaces nineTokenLine) [':']).length ∧
    (fetch_parse nineTokenLine).tooManyCmd = false ∧
    (fetch_parse nineTokenLine).ctoks =
      ([str "gpio", str "a", str "b", str "c", str "d", str "e", str "f", str "g",
        str "h"].map some ++ [some (str "")]) ∧
    (fetch_parse nineTokenLine).outcome = some (DispatchOutcome.handled 2 false []) := by
  decide

/-- Data-only line used for claim C7. -/
def parenLine : List Char := str "(01 02)"

/-- Line starting with a closing parenthesis, used for claim C7. -/
def closeParenLine : List Char := str ")gpio"

/-- Claim C7 is the documented intent; this theorem exhibits the code's
actual behaviour: a line starting with a '(' is rejected with the missing
command error and never dispatched, but a line starting with ')' slips past
the condition `localinput[0] != '(' || localinput[0] == ')'` (whose ')' test
is unreachable), is tokenized, and reaches the dispatcher as an
unrecognized command instead of being rejected. -/
theorem parse_paren_first_char_behavior :
    ((fetch_parse parenLine).missingCmd = true ∧
      (fetch_parse parenLine).ret = some false ∧
      (fetch_parse parenLine).outcome = none) ∧
    ((fetch_parse closeParenLine).missingCmd = false ∧
      (fetch_parse closeParenLine).outcome = some DispatchOutcome.unrecognized ∧
      (fetch_parse closeParenLine).ret = some false) := by decide

/-- The statement of claim C8. -/
def dataLine : List Char := str "gpio:set:porta:pin3(01 02 0a)\n"

/-- Counterexample to C8 as stated: "0a" is not among the data tokens; the
third data token keeps the trailing parenthesis and newline. -/
theorem data_tokens_counterexample :
    some (str "0a") ∉ (fetch_parse dataLine).dtoks ∧
    (fetch_parse dataLine).dtoks.get? 2 = some (some (str "0a)\n")) := by decide

/-- Claim C8 (amended): tokenizing the line yields exactly the three data
tokens "01", "02" and "0a)\n" (followed by the empty-string terminator the
parser always appends): the data part is split on spaces only, so the
trailing parenthesis and newline stay attached to the last token. -/
theorem data_tokens_of_paren_line :
    (fetch_parse dataLine).dtoks =
      [some (str "01"), some (str "02"), some (str "0a)\n"), some (str "")] := by decide

/-- Claim C9: an empty input line parses successfully: fetch_parse takes the
empty-command-part exit, returns true, and the dispatcher is never
invoked. -/
theorem empty_line_no_op :
    (fetch_parse (str "")).ret = some true ∧
    (fetch_parse (str "")).outcome = none ∧
    (fetch_parse (str "")).emptyLine = true := by decide

/-! ## Claim C10: fetch_parse never writes to the caller's buffer

The C objects involved are distinct storage: the caller's line buffer and
the static arrays localinput, commandstr, datastr, command_toks and
data_toks of fetch.c.  The state below carries one field per object; every
write of fetch_parse is modelled as an update of the field naming the C
object the source writes to, so the theorem that the caller's field is
preserved is exactly the claim that no write targets the caller's buffer. -/

/-- The buffers fetch_parse touches: the caller's `inputline` and the static
working storage of fetch.c. -/
structure FetchBuffers where
  inputline : List Char
  localinput : List Char
  commandstr : List Char
  datastr : List Char
  command_toks : List (Option (List Char))
  data_toks : List (Option (List Char))
  deriving Repr

/-- C `strncpy(dst, src, n)`: copy at most `n` bytes of the source string,
pad with NULs up to `n` when the source is shorter, and leave the bytes of
`dst` beyond `n` untouched. -/
def strncpyBuf (dst src : List Char) (n : Nat) : List Char :=
  src.take n ++ List.replicate (n - src.length) '\x00' ++ dst.drop n

/-- The C string stored in a buffer: its bytes before the first NUL. -/
def cstrOf (buf : List Char) : List Char := buf.takeWhile (· ≠ '\x00')

/-- Write one byte of a buffer, as `buf[i] = c` does. -/
def setByte (buf : List Char) (i : Nat) (c : Char) : List Char := buf.set i c

/-- NUL writes `_strtok` performs while tokenizing a buffer: each delimiter
byte it consumes is overwritten with NUL.  Nullifying every delimiter byte
of the buffer covers those writes (it is exact for the loops that run
`_strtok` to exhaustion) and, like them, stays inside the buffer being
tokenized. -/
def strtokNullify (buf : List Char) (d : List Char) : List Char :=
  buf.map (fun c => if c ∈ d then '\x00' else c)

/-- In-place effect of `fetch_remove_spaces` on its buffer: the compacted
string, NUL-terminated, with the tail bytes of the buffer left behind it. -/
def remove_spaces_buf (buf : List Char) : List Char :=
  let t := fetch_remove_spaces (cstrOf buf)
  t ++ '\x00' :: buf.drop (t.length + 1)

/-- C `fetch_parse(chp, inputline)` (fetch.c) as a transformer of the
buffer state, following the source order of operations: copy the caller's
line into localinput, test localinput[0], tokenize localinput at '(' into
colonpart and parenpart, copy them NUL-terminated into commandstr and
datastr, strip whitespace from commandstr in place, tokenize commandstr on
':' and datastr on ' ' into the token-pointer arrays, and dispatch.
Returns the final buffers and the return value (`none` when the dispatcher
trips its NULL assertion). -/
def fetch_parse_buffers (s0 : FetchBuffers) : FetchBuffers × Option Bool :=
  let s := { s0 with localinput := strncpyBuf s0.localinput s0.inputline FETCH_MAX_LINE_CHARS }
  let c0 := s.localinput.headD '\x00'
  if (c0 != '(') || (c0 == ')') then
    let runs := tokenRuns (cstrOf s.localinput) ['(']
    let s := { s with localinput := strtokNullify s.localinput ['('] }
    match runs.head? with
    | none => (s, some true)
    | some colonpart =>
        let cbuf := setByte (strncpyBuf s.commandstr colonpart colonpart.length)
          colonpart.length '\x00'
        let s := { s with commandstr := cbuf }
        let s := { s with commandstr := remove_spaces_buf s.commandstr }
        let parenpart := runs.get? 1
        let s :=
          match parenpart with
          | some pp =>
              let dbuf := setByte (strncpyBuf s.datastr pp pp.length) pp.length '\x00'
              { s with datastr := dbuf }
          | none => s
        let cres := buildToks (tokenRuns (cstrOf s.commandstr) [':'])
        let s := { s with commandstr := strtokNullify s.commandstr [':'],
                          command_toks := cres.2 }
        let s :=
          match parenpart with
          | some _ =>
              let dres := buildToks (tokenRuns (cstrOf s.datastr) [' '])
              { s with datastr := strtokNullify s.datastr [' '], data_toks := dres.2 }
          | none => { s with data_toks := none :: s.data_toks.drop 1 }
        match fetch_dispatch s.command_toks with
        | DispatchOutcome.assertNull => (s, none)
        | DispatchOutcome.unrecognized => (s, some false)
        | DispatchOutcome.handled _ r _ => (s, some r)
  else (s, some false)

/-- Claim C10: fetch_parse leaves the caller's input-line buffer
byte-for-byte unchanged; the line is copied into localinput first and every
subsequent write lands in localinput, commandstr, datastr or the
token-pointer arrays. -/
theorem fetch_parse_preserves_caller_buffer (s : FetchBuffers) :
    ((fetch_parse_buffers s).1).inputline = s.inputline := by
  unfold fetch_parse_buffers
  dsimp only
  split
  · split
    · rfl
    · split <;> split <;> split <;> rfl
  · rfl
